import Mathlib

/-!
Shallow embedding of the print-preparation core of the `etsy_listing_creator`
repository, covering `src/etsy_listing_creator/tools/image_processing.py`
(class `ImageProcessingTool`) and, where a claim names it, the older variant
`src/etsy_listing_creator/tools/print_prep.py` (class `PrintPreparationTool`).

Modelling conventions:
* An image is its pixel geometry: `width`, `height`, and a total pixel
  function.  PIL resampling (`Image.resize(..., LANCZOS)`) is modelled with
  exact dimensions; the resampled pixel colors are modelled by coordinate
  scaling, and no theorem below depends on resampled color values - only on
  dimensions and on pixels that the source code leaves untouched (canvas
  background outside a pasted region).
* The `ops` field is ghost instrumentation: it records, in order, the
  content-altering operations (upscale invocation, enhancement factors,
  compositing) that the Python code applies, so that claims about "which
  enhancement is applied, with which factor, and in which order" are statable.
  It does not influence geometry or pixels.
* Python float arithmetic on aspect ratios (`img_width / img_height`,
  `int(x)` truncation) is modelled by exact rational comparison via
  cross-multiplication and by `Nat` floor division; for image dimensions in
  the ranges the catalogs produce, IEEE double division is exact enough that
  the floor/comparison results coincide.
* Fallible Python code (functions that can raise) returns `Except String`;
  the error string models the exception's message.
-/

namespace EtsyListing

/-- An RGB color, each channel 0-255 as in PIL mode "RGB". -/
abbrev Color := Nat × Nat × Nat

/-- Pure white, the canvas background color `(255, 255, 255)`. -/
def white : Color := (255, 255, 255)

/-- Ghost trace of content-altering operations applied to an image.
`sharpenFilter` is `ImageFilter.SHARPEN`; `sharpness`/`contrast`/`color`/
`brightness` are the `ImageEnhance` adjustments with their factor in percent
(e.g. `contrast 105` is `ImageEnhance.Contrast(..).enhance(1.05)`);
`upscaled s` records an invocation of the Upscaler with integer factor `s`;
`compositeOnCanvas fill` records `center_image_on_canvas`. -/
inductive ImgOp
  | sharpenFilter
  | sharpness (percent : Nat)
  | contrast (percent : Nat)
  | color (percent : Nat)
  | brightness (percent : Nat)
  | upscaled (scale : Nat)
  | compositeOnCanvas (fill : Bool)
deriving DecidableEq

/-- A decoded raster image: dimensions, pixel function, and the ghost trace
of operations that produced it. -/
structure Image where
  width : Nat
  height : Nat
  pixel : Nat → Nat → Color
  ops : List ImgOp := []

/-- `PIL.Image.new("RGB", (w, h), color)`: a constant-color image. -/
def Image.new (w h : Nat) (c : Color) : Image :=
  { width := w, height := h, pixel := fun _ _ => c }

/-- `img.crop((l, t, r, b))`: a new `(r-l) × (b-t)` image sampling the source
at offset `(l, t)`.  All crop boxes the code builds lie inside the source. -/
def Image.crop (img : Image) (l t r b : Nat) : Image :=
  { width := r - l, height := b - t, pixel := fun x y => img.pixel (l + x) (t + y),
    ops := img.ops }

/-- `img.resize((w, h), Image.LANCZOS)`: exact requested dimensions; the
resampled colors are modelled by coordinate scaling (no theorem depends on
them). -/
def Image.resize (img : Image) (w h : Nat) : Image :=
  { width := w, height := h,
    pixel := fun x y => img.pixel (x * img.width / w) (y * img.height / h),
    ops := img.ops }

/-- `base.paste(img, (px, py))` (on a copy of `base`): pixels inside the
pasted rectangle come from `img`, pixels outside keep the base pixel. -/
def Image.paste (base img : Image) (px py : Nat) : Image :=
  { width := base.width, height := base.height,
    pixel := fun x y =>
      if px ≤ x ∧ x < px + img.width ∧ py ≤ y ∧ y < py + img.height then
        img.pixel (x - px) (y - py)
      else base.pixel x y,
    ops := base.ops }

/-- A point operation / filter: dimensions and pixels are preserved (the color
adjustment itself is abstracted), the ghost trace records the operation. -/
def Image.applyOp (img : Image) (op : ImgOp) : Image :=
  { img with ops := img.ops ++ [op] }

/-! ## Size catalog (`PORTRAIT_PRINT_SIZES` / `LANDSCAPE_PRINT_SIZES`) -/

/-- `ImageProcessingTool.PORTRAIT_PRINT_SIZES`: name ↦ (width, height) at 300 DPI. -/
def PORTRAIT_PRINT_SIZES : List (String × Nat × Nat) :=
  [("4x6", 1200, 1800), ("5x7", 1500, 2100), ("8x10", 2400, 3000),
   ("11x14", 3300, 4200), ("16x20", 4800, 6000)]

/-- `ImageProcessingTool.LANDSCAPE_PRINT_SIZES`: name ↦ (width, height) at 300 DPI. -/
def LANDSCAPE_PRINT_SIZES : List (String × Nat × Nat) :=
  [("6x4", 1800, 1200), ("7x5", 2100, 1500), ("10x8", 3000, 2400),
   ("14x11", 4200, 3300), ("20x16", 6000, 4800)]

/-- Dictionary lookup `print_sizes[size_name]` (`None` when absent, i.e. the
`size_name not in print_sizes` test). -/
def lookupSize (sizes : List (String × Nat × Nat)) (name : String) : Option (Nat × Nat) :=
  (sizes.find? (fun e => e.1 == name)).map (fun e => (e.2.1, e.2.2))

/-- `get_print_sizes_for_aspect_ratio`: `"landscape"` selects the landscape
catalog; any other value (including `None`) selects portrait. -/
def get_print_sizes_for_aspect_ratio (aspect_ratio : Option String) :
    List (String × Nat × Nat) :=
  if aspect_ratio == some "landscape" then LANDSCAPE_PRINT_SIZES
  else PORTRAIT_PRINT_SIZES

/-- `prepare_print_canvas`: blank white canvas of the catalog dimensions, or
`ValueError(f"Invalid print size: {size_name}")` for an unknown size. -/
def prepare_print_canvas (size_name : String) (aspect_ratio : Option String) :
    Except String Image :=
  match lookupSize (get_print_sizes_for_aspect_ratio aspect_ratio) size_name with
  | none => Except.error ("Invalid print size: " ++ size_name)
  | some dims => Except.ok (Image.new dims.1 dims.2 white)

/-! ## Canvas compositing (`center_image_on_canvas`, `ImageProcessingTool`) -/

/-- A PIL crop box `(left, top, right, bottom)`. -/
structure CropBox where
  left : Nat
  top : Nat
  right : Nat
  bottom : Nat
deriving DecidableEq

/-- The crop box `center_image_on_canvas` builds in the `fill_canvas` branch:
if the image is wider than the canvas (`img_aspect > canvas_aspect`, compared
by cross-multiplication) it crops the width symmetrically to the canvas
aspect; otherwise it crops the height symmetrically.
`int(img_height * canvas_aspect)` and `int(img_width / canvas_aspect)` are
`Nat` floor divisions. -/
def fill_crop_box (image canvas : Image) : CropBox :=
  if image.width * canvas.height > canvas.width * image.height then
    let new_width := image.height * canvas.width / canvas.height
    let l := (image.width - new_width) / 2
    { left := l, top := 0, right := l + new_width, bottom := image.height }
  else
    let new_height := image.width * canvas.height / canvas.width
    let t := (image.height - new_height) / 2
    { left := 0, top := t, right := image.width, bottom := t + new_height }

/-- The image pasted in the `fill_canvas = True` branch: crop to the canvas
aspect, then resize to the exact canvas dimensions. -/
def fill_resized (image canvas : Image) : Image :=
  let b := fill_crop_box image canvas
  (image.crop b.left b.top b.right b.bottom).resize canvas.width canvas.height

/-- The image pasted in the `fill_canvas = False` branch: fit to canvas width
when the image is wider than the canvas, else fit to canvas height
(`int(canvas_width / img_aspect)` / `int(canvas_height * img_aspect)` as
floor divisions). -/
def letterbox_resized (image canvas : Image) : Image :=
  if image.width * canvas.height > canvas.width * image.height then
    image.resize canvas.width (canvas.width * image.height / image.width)
  else
    image.resize (canvas.height * image.width / image.height) canvas.height

/-- The paste position in the `fill_canvas = False` branch: `(0, top)` with
`top = (canvas_height - new_height) // 2` when fitting to width, `(left, 0)`
with `left = (canvas_width - new_width) // 2` when fitting to height. -/
def letterbox_pos (image canvas : Image) : Nat × Nat :=
  if image.width * canvas.height > canvas.width * image.height then
    (0, (canvas.height - canvas.width * image.height / image.width) / 2)
  else
    ((canvas.width - canvas.height * image.width / image.height) / 2, 0)

/-- `ImageProcessingTool.center_image_on_canvas`.  PIL `crop`/`resize` return
new objects and `paste` acts on `canvas.copy()`, so the function is pure: the
input image is not mutated.  The ghost trace records one compositing step on
top of the input image's trace. -/
def center_image_on_canvas (image canvas : Image) (fill_canvas : Bool) : Image :=
  let pasted :=
    if fill_canvas then
      canvas.paste (fill_resized image canvas) 0 0
    else
      canvas.paste (letterbox_resized image canvas)
        (letterbox_pos image canvas).1 (letterbox_pos image canvas).2
  { pasted with ops := image.ops ++ [ImgOp.compositeOnCanvas fill_canvas] }

/-! ## Enhancement (`enhance_image_for_print`) -/

/-- The trace of adjustments `enhance_image_for_print` applies:
`preserve_colors = True`: `ImageFilter.SHARPEN` then contrast `enhance(1.05)`;
`preserve_colors = False`: `ImageFilter.SHARPEN`, contrast `enhance(1.2)`,
color `enhance(1.1)`, brightness `enhance(1.05)`. -/
def enhance_trace (preserve_colors : Bool) : List ImgOp :=
  if preserve_colors then
    [ImgOp.sharpenFilter, ImgOp.contrast 105]
  else
    [ImgOp.sharpenFilter, ImgOp.contrast 120, ImgOp.color 110, ImgOp.brightness 105]

/-- `ImageProcessingTool.enhance_image_for_print`: always one
`ImageFilter.SHARPEN` pass first, then either the aggressive profile
(`not preserve_colors`: contrast 1.2, color 1.1, brightness 1.05) or the
minimal one (contrast 1.05 only). -/
def enhance_image_for_print (image : Image) (preserve_colors : Bool) : Image :=
  let image1 := image.applyOp ImgOp.sharpenFilter
  if preserve_colors then
    image1.applyOp (ImgOp.contrast 105)
  else
    ((image1.applyOp (ImgOp.contrast 120)).applyOp (ImgOp.color 110)).applyOp
      (ImgOp.brightness 105)

/-! ## Source files and the Upscaler -/

/-- A source file path as the two tools see it: the path may be absent from
the file system, present but not decodable as an image, or decodable to an
image. -/
inductive SourceFile
  | missing
  | undecodable
  | decoded (img : Image)

/-- `ImageProcessingTool._create_fallback_image`: a 1200x1800 (4x6 at 300
DPI) gradient image.  Per-row channel values follow the drawing loop
(`int(255 * (1 - y/height))` etc., as floor divisions); the text overlay is
abstracted (it depends on the installed font and changes no dimension). -/
def fallback_image : Image :=
  { width := 1200, height := 1800,
    pixel := fun _ y => (255 * (1800 - y) / 1800, 200 * y / 1800, 255 * y / 1800) }

/-- `ImageProcessingTool._create_temp_copy`: a missing source file is
replaced by the generated fallback image (which is then a decodable file);
an existing file is copied byte-for-byte, so an undecodable file stays
undecodable and a decodable one keeps its content. -/
def ip_create_temp_copy : SourceFile → SourceFile
  | SourceFile.missing => SourceFile.decoded fallback_image
  | f => f

/-- The Pillow upscaling path shared by both tools' `upscale_image`
(`realesrgan_path` is `None` by default, so the Real-ESRGAN branch is never
taken): resize to `scale`-times the linear dimensions with LANCZOS, then the
`ImageProcessingTool` quality tweaks (`Sharpness(..).enhance(1.5)`,
`Contrast(..).enhance(1.2)`).  The ghost trace records the invocation and
its factor. -/
def upscale_pillow (img : Image) (scale : Nat) : Image :=
  let up := img.resize (img.width * scale) (img.height * scale)
  { up with ops := img.ops ++ [ImgOp.upscaled scale, ImgOp.sharpness 150, ImgOp.contrast 120] }

/-- `ImageProcessingTool.upscale_image` on a source file: missing files are
replaced by the fallback image in `_create_temp_copy` and then upscaled like
any other; if the (copied) file cannot be decoded, `Image.open` raises
inside the Pillow block, the `except` branch creates the fallback image and
returns it unscaled.  No exception escapes this function. -/
def ip_upscale_image (file : SourceFile) (scale : Nat) : Except String Image :=
  match ip_create_temp_copy file with
  | SourceFile.decoded img => Except.ok (upscale_pillow img scale)
  | _ => Except.ok fallback_image

/-- `PrintPreparationTool.upscale_image` on a source file.  A missing file
makes `shutil.copy2` raise `FileNotFoundError` inside `_create_temp_copy`,
whose `except PermissionError` clause does not catch it; an undecodable file
makes `Image.open` raise.  Either way control reaches the final fallback
block, which executes `draw = ImageDraw.Draw(fallback_img)` - but
`print_prep.py` never imports `ImageDraw`, so a `NameError` is raised there,
caught by `except Exception as fallback_error`, and the function raises
`RuntimeError("Cannot create any image for processing")`.  A decodable file
takes the Pillow path (resize, `ImageFilter.SHARPEN`, contrast 1.1,
color 1.05). -/
def pp_upscale_image (file : SourceFile) (scale : Nat) : Except String Image :=
  match file with
  | SourceFile.decoded img =>
      let up := img.resize (img.width * scale) (img.height * scale)
      Except.ok { up with
        ops := img.ops ++ [ImgOp.upscaled scale, ImgOp.sharpenFilter,
                           ImgOp.contrast 110, ImgOp.color 105] }
  | _ => Except.error "Cannot create any image for processing"

/-- The integer scale factor `prepare_image_for_print` passes to the
Upscaler: `int(max(target_width / img_width, target_height / img_height))`.
The maximum of the two rationals is selected by cross-multiplication and its
floor taken by `Nat` division. -/
def upscale_scale (img_width img_height target_width target_height : Nat) : Nat :=
  if target_width * img_height ≥ target_height * img_width then
    target_width / img_width
  else
    target_height / img_height

/-! ## Pipeline entry points (`ImageProcessingTool`) -/

/-- The value `prepare_image_for_print` saves: the output path, the image
written there, and the DPI metadata passed to `result.save(..., dpi=(300, 300))`. -/
structure SavedImage where
  path : String
  image : Image
  dpi : Nat × Nat

/-- `ImageProcessingTool.prepare_image_for_print`.  Steps in source order:
temp copy (missing source ⟶ fallback image), `Image.open` (an undecodable
temp file raises, and the outer `except` re-raises), catalog lookup
(`ValueError` on an unknown size), upscale when the source is below target in
either dimension, blank white canvas via `prepare_print_canvas` (its own size
check cannot fail here), compositing, enhancement, and save with
`dpi=(300, 300)` under `output/processed_images/print_{size_name}.png` when
no output filename is given (`if not output_filename` also treats an empty
string as absent). -/
def prepare_image_for_print (file : SourceFile) (size_name : String)
    (output_filename : Option String) (fill_canvas : Bool)
    (aspect_ratio : Option String) (preserve_colors : Bool) :
    Except String SavedImage :=
  match ip_create_temp_copy file with
  | SourceFile.decoded source =>
    match lookupSize (get_print_sizes_for_aspect_ratio aspect_ratio) size_name with
    | none => Except.error ("Invalid print size: " ++ size_name)
    | some dims =>
      let target_width := dims.1
      let target_height := dims.2
      let image :=
        if source.width < target_width ∨ source.height < target_height then
          upscale_pillow source
            (upscale_scale source.width source.height target_width target_height)
        else source
      let canvas := Image.new target_width target_height white
      let result := center_image_on_canvas image canvas fill_canvas
      let final := enhance_image_for_print result preserve_colors
      let fname :=
        match output_filename with
        | none => "print_" ++ size_name ++ ".png"
        | some f => if f = "" then "print_" ++ size_name ++ ".png" else f
      Except.ok { path := "output/processed_images/" ++ fname, image := final,
                  dpi := (300, 300) }
  | _ => Except.error "cannot identify image file"

/-- `ImageProcessingTool.prepare_all_print_sizes`: iterate every size name of
the selected catalog in order, call `prepare_image_for_print` for each, catch
any per-size exception and continue, and return the collected output paths.
There is no emptiness check: when every size fails the empty list is returned
normally. -/
def prepare_all_print_sizes (file : SourceFile) (fill_canvas : Bool)
    (aspect_ratio : Option String) (preserve_colors : Bool) : List String :=
  (get_print_sizes_for_aspect_ratio aspect_ratio).foldl
    (fun acc e =>
      acc ++ ((prepare_image_for_print file e.1 none fill_canvas aspect_ratio
          preserve_colors).toOption.map SavedImage.path).toList)
    []

/-! ## The public `run` entry point -/

/-- A parsed JSON value, the result of `json.loads`. -/
inductive Json
  | null
  | bool (b : Bool)
  | num (n : Int)
  | str (s : String)
  | arr (xs : List Json)
  | obj (fields : List (String × Json))

/-- Whether a JSON value is an object (`isinstance(input_data, dict)`). -/
def Json.isObj : Json → Bool
  | Json.obj _ => true
  | _ => false

/-- Python truthiness of a JSON value (`if not image_path`). -/
def json_truthy : Json → Bool
  | Json.null => false
  | Json.bool b => b
  | Json.num n => n != 0
  | Json.str s => s != ""
  | Json.arr xs => !xs.isEmpty
  | Json.obj fs => !fs.isEmpty

/-- `input_data.get(key, default-when-absent handled by the caller)`:
first matching field, `none` when absent. -/
def lookupField (fields : List (String × Json)) (key : String) : Option Json :=
  (fields.find? (fun p => p.1 == key)).map (fun p => p.2)

/-- `json.dumps` of a list of path strings: `["a", "b"]` with the default
`", "` separator; the paths the tool produces need no character escaping. -/
def json_dumps_list (paths : List String) : String :=
  "[" ++ String.intercalate ", " (paths.map (fun s => "\"" ++ s ++ "\"")) ++ "]"

/-- `input_data.get("image_path", "")`: the field's value, or the empty
string when absent. -/
def image_path_of (fields : List (String × Json)) : Json :=
  (lookupField fields "image_path").getD (Json.str "")

/-- The path string the per-size processing receives (the `image_path`
value; only string values reach the file system as paths). -/
def path_str_of (j : Json) : String :=
  match j with
  | Json.str s => s
  | _ => ""

/-- `input_data.get("aspect_ratio", None)`: only a string value can ever
compare equal to `"landscape"` downstream, so non-strings act as `None`. -/
def aspect_ratio_of (fields : List (String × Json)) : Option String :=
  match lookupField fields "aspect_ratio" with
  | some (Json.str s) => some s
  | _ => none

/-- `input_data.get("fill_canvas", True)`, used by truthiness. -/
def fill_canvas_of (fields : List (String × Json)) : Bool :=
  match lookupField fields "fill_canvas" with
  | some j => json_truthy j
  | none => true

/-- `input_data.get("preserve_colors", True)`, used by truthiness. -/
def preserve_colors_of (fields : List (String × Json)) : Bool :=
  match lookupField fields "preserve_colors" with
  | some j => json_truthy j
  | none => true

/-- `ImageProcessingTool.run`.  `parsed` is the outcome of
`json.loads input_str` (`none` models `json.JSONDecodeError`); `fs` maps a
path string to the source file found there.  Mirrors the source control
flow: a JSON object is destructured (missing or falsy `image_path` yields
the fixed error message; `aspect_ratio` is used as a string, `fill_canvas`
and `preserve_colors` by truthiness with default `True`) and processed, a
JSON decode error makes the raw input a direct image path - but a valid
JSON value that is not an object skips the `isinstance` body, falls off both
`try` blocks, and the Python function returns `None`, modelled as `none`.
`prepare_all_print_sizes` catches all per-size exceptions and returns
normally, so the outer `except Exception` branch (which would return
`"Error processing image: ..."`) is unreachable in this code. -/
def run (input_str : String) (parsed : Option Json) (fs : String → SourceFile) :
    Option String :=
  match parsed with
  | none =>
      some (json_dumps_list (prepare_all_print_sizes (fs input_str) true none true))
  | some (Json.obj fields) =>
      if json_truthy (image_path_of fields) then
        some (json_dumps_list (prepare_all_print_sizes
          (fs (path_str_of (image_path_of fields)))
          (fill_canvas_of fields) (aspect_ratio_of fields) (preserve_colors_of fields)))
      else
        some "Error: Missing required field 'image_path' in JSON input"
  | some _ => none

/-! ## Small helpers for stating and witnessing theorems -/

/-- Whether a fallible call succeeded. -/
def exceptIsOk {ε α : Type} : Except ε α → Bool
  | Except.ok _ => true
  | Except.error _ => false

/-- The success value of a fallible call (a dummy saved image on error; used
only to instantiate theorems at inputs where the call is known to succeed). -/
def okValue (e : Except String SavedImage) : SavedImage :=
  match e with
  | Except.ok out => out
  | Except.error _ => { path := "", image := Image.new 0 0 white, dpi := (0, 0) }

/-- Executable substring test, used to state what an error message does not
mention. -/
def strContains (s pat : String) : Bool :=
  (List.range (s.length + 1)).any
    (fun i => (s.toList.drop i).take pat.length = pat.toList)

/-! # Theorems

General lemmas about the embedded code, followed by one theorem per claim
(with witnesses and counterexamples where required). -/

theorem center_image_on_canvas_width (image canvas : Image) (f : Bool) :
    (center_image_on_canvas image canvas f).width = canvas.width := by
  cases f <;> rfl

theorem center_image_on_canvas_height (image canvas : Image) (f : Bool) :
    (center_image_on_canvas image canvas f).height = canvas.height := by
  cases f <;> rfl

theorem center_image_on_canvas_ops (image canvas : Image) (f : Bool) :
    (center_image_on_canvas image canvas f).ops =
      image.ops ++ [ImgOp.compositeOnCanvas f] := rfl

theorem enhance_image_for_print_ops (image : Image) (p : Bool) :
    (enhance_image_for_print image p).ops = image.ops ++ enhance_trace p := by
  cases p <;> simp [enhance_image_for_print, enhance_trace, Image.applyOp]

theorem enhance_image_for_print_width (image : Image) (p : Bool) :
    (enhance_image_for_print image p).width = image.width := by
  cases p <;> rfl

theorem enhance_image_for_print_height (image : Image) (p : Bool) :
    (enhance_image_for_print image p).height = image.height := by
  cases p <;> rfl

/-- On a decoded source, `prepare_image_for_print` succeeds exactly when the
size name is in the selected catalog, and then the saved image is the
enhanced composite with the default or given filename. -/
theorem prepare_decoded_ok (source : Image) (size_name : String)
    (ofn : Option String) (fill pc : Bool) (ar : Option String) (tw th : Nat)
    (hl : lookupSize (get_print_sizes_for_aspect_ratio ar) size_name = some (tw, th)) :
    prepare_image_for_print (SourceFile.decoded source) size_name ofn fill ar pc =
      Except.ok
        { path := "output/processed_images/" ++
            (match ofn with
             | none => "print_" ++ size_name ++ ".png"
             | some f => if f = "" then "print_" ++ size_name ++ ".png" else f),
          image := enhance_image_for_print
            (center_image_on_canvas
              (if source.width < tw ∨ source.height < th then
                upscale_pillow source (upscale_scale source.width source.height tw th)
               else source)
              (Image.new tw th white) fill) pc,
          dpi := (300, 300) } := by
  simp only [prepare_image_for_print, ip_create_temp_copy, hl]

/-- A missing source file behaves exactly like the generated fallback image:
`_create_temp_copy` substitutes it before anything else happens. -/
theorem prepare_missing_eq_fallback (size_name : String) (ofn : Option String)
    (fill pc : Bool) (ar : Option String) :
    prepare_image_for_print SourceFile.missing size_name ofn fill ar pc =
      prepare_image_for_print (SourceFile.decoded fallback_image) size_name ofn fill ar pc := rfl

/-- An undecodable source makes `Image.open` raise and the exception is
re-raised by `prepare_image_for_print`. -/
theorem prepare_undecodable_error (size_name : String) (ofn : Option String)
    (fill pc : Bool) (ar : Option String) :
    prepare_image_for_print SourceFile.undecodable size_name ofn fill ar pc =
      Except.error "cannot identify image file" := rfl

/-- On a decoded source, an unknown size name raises the `ValueError`. -/
theorem prepare_decoded_invalid_size (source : Image) (size_name : String)
    (ofn : Option String) (fill pc : Bool) (ar : Option String)
    (hl : lookupSize (get_print_sizes_for_aspect_ratio ar) size_name = none) :
    prepare_image_for_print (SourceFile.decoded source) size_name ofn fill ar pc =
      Except.error ("Invalid print size: " ++ size_name) := by
  simp only [prepare_image_for_print, ip_create_temp_copy, hl]

/-- The ghost trace of a successful run on a decoded source: the upscaler
trace when the source is below target, then one compositing step, then the
enhancement trace. -/
theorem prepare_decoded_ops (source : Image) (size_name : String)
    (ofn : Option String) (fill pc : Bool) (ar : Option String) (tw th : Nat)
    (out : SavedImage)
    (hl : lookupSize (get_print_sizes_for_aspect_ratio ar) size_name = some (tw, th))
    (h : prepare_image_for_print (SourceFile.decoded source) size_name ofn fill ar pc =
          Except.ok out) :
    out.image.ops =
      source.ops ++
        (if source.width < tw ∨ source.height < th then
          [ImgOp.upscaled (upscale_scale source.width source.height tw th),
           ImgOp.sharpness 150, ImgOp.contrast 120]
         else [])
        ++ ImgOp.compositeOnCanvas fill :: enhance_trace pc := by
  rw [prepare_decoded_ok source size_name ofn fill pc ar tw th hl] at h
  have hout := (Except.ok.inj h).symm
  subst hout
  rw [enhance_image_for_print_ops, center_image_on_canvas_ops]
  by_cases hup : source.width < tw ∨ source.height < th
  · simp [hup, upscale_pillow]
  · simp [hup]

/-- Claim C1: whenever `prepare_image_for_print` succeeds, the saved output
image's pixel width and height exactly equal the width and height the
selected orientation catalog declares for that size name, and the saved file
carries DPI metadata `(300, 300)` on both axes. -/
theorem saved_image_matches_catalog_and_dpi
    (file : SourceFile) (size_name : String) (ofn : Option String)
    (fill pc : Bool) (ar : Option String) (out : SavedImage)
    (h : prepare_image_for_print file size_name ofn fill ar pc = Except.ok out) :
    lookupSize (get_print_sizes_for_aspect_ratio ar) size_name =
      some (out.image.width, out.image.height) ∧ out.dpi = (300, 300) := by
  have key : ∀ source : Image,
      prepare_image_for_print (SourceFile.decoded source) size_name ofn fill ar pc =
        Except.ok out →
      lookupSize (get_print_sizes_for_aspect_ratio ar) size_name =
        some (out.image.width, out.image.height) ∧ out.dpi = (300, 300) := by
    intro source hsrc
    cases hl : lookupSize (get_print_sizes_for_aspect_ratio ar) size_name with
    | none =>
      rw [prepare_decoded_invalid_size source size_name ofn fill pc ar hl] at hsrc
      exact absurd hsrc (by simp)
    | some dims =>
      obtain ⟨tw, th⟩ := dims
      rw [prepare_decoded_ok source size_name ofn fill pc ar tw th hl] at hsrc
      have hout := (Except.ok.inj hsrc).symm
      subst hout
      refine ⟨?_, rfl⟩
      simp only [hl, enhance_image_for_print_width, enhance_image_for_print_height,
        center_image_on_canvas_width, center_image_on_canvas_height, Image.new]
  cases file with
  | missing => exact key fallback_image h
  | undecodable =>
    rw [prepare_undecodable_error] at h
    exact absurd h (by simp)
  | decoded img => exact key img h

/-- Witness for claim C1: an 8x10 portrait run on a 600x800 source succeeds
and saves a 2400x3000 image at DPI (300, 300). -/
theorem saved_image_matches_catalog_and_dpi_witness :
    lookupSize (get_print_sizes_for_aspect_ratio none) "8x10" =
      some ((okValue (prepare_image_for_print (SourceFile.decoded (Image.new 600 800 white))
                "8x10" none true none true)).image.width,
            (okValue (prepare_image_for_print (SourceFile.decoded (Image.new 600 800 white))
                "8x10" none true none true)).image.height)
    ∧ (okValue (prepare_image_for_print (SourceFile.decoded (Image.new 600 800 white))
          "8x10" none true none true)).dpi = (300, 300) :=
  saved_image_matches_catalog_and_dpi (SourceFile.decoded (Image.new 600 800 white))
    "8x10" none true true none _ rfl

/-- Folding the collect-successes loop body equals `filterMap`. -/
theorem foldl_collect {α β : Type} (f : α → Option β) (l : List α) (acc : List β) :
    l.foldl (fun a x => a ++ (f x).toList) acc = acc ++ l.filterMap f := by
  induction l generalizing acc with
  | nil => simp
  | cons x xs ih =>
    cases hfx : f x <;> simp [List.filterMap_cons, hfx, ih, List.append_assoc]

/-- Claim C2 (amended): `prepare_all_print_sizes` invokes the single-size
entry point once for every size name of the selected catalog, catches a
failure on any one size and continues, and returns the list of paths of the
successful sizes in catalog order; when every size fails it returns the
empty list normally - no `NoSizesProcessedError` exists in the code. -/
theorem prepare_all_collects_successes (file : SourceFile) (fill : Bool)
    (ar : Option String) (pc : Bool) :
    prepare_all_print_sizes file fill ar pc =
      (get_print_sizes_for_aspect_ratio ar).filterMap
        (fun e =>
          (prepare_image_for_print file e.1 none fill ar pc).toOption.map SavedImage.path)
    ∧ ((∀ e ∈ get_print_sizes_for_aspect_ratio ar,
          exceptIsOk (prepare_image_for_print file e.1 none fill ar pc) = false) →
        prepare_all_print_sizes file fill ar pc = []) := by
  have heq : prepare_all_print_sizes file fill ar pc =
      (get_print_sizes_for_aspect_ratio ar).filterMap
        (fun e =>
          (prepare_image_for_print file e.1 none fill ar pc).toOption.map SavedImage.path) := by
    unfold prepare_all_print_sizes
    exact (foldl_collect
      (fun e : String × Nat × Nat =>
        (prepare_image_for_print file e.1 none fill ar pc).toOption.map SavedImage.path)
      (get_print_sizes_for_aspect_ratio ar) []).trans (List.nil_append _)
  refine ⟨heq, fun hall => ?_⟩
  rw [heq, List.filterMap_eq_nil_iff]
  intro e he
  have hone := hall e he
  cases hforce : prepare_image_for_print file e.1 none fill ar pc with
  | ok out =>
    rw [hforce] at hone
    exact absurd hone (by simp [exceptIsOk])
  | error msg => simp [hforce, Except.toOption]

/-- Counterexample to claim C2 as stated: with an undecodable source every
one of the five portrait sizes fails, yet the aggregate call returns the
empty list normally; its return type has no failure alternative and no
`NoSizesProcessedError` is defined anywhere in the repository. -/
theorem prepare_all_empty_counterexample :
    ((get_print_sizes_for_aspect_ratio none).all
        (fun e => !(exceptIsOk
          (prepare_image_for_print SourceFile.undecodable e.1 none true none true)))) = true
    ∧ prepare_all_print_sizes SourceFile.undecodable true none true = [] := by
  exact ⟨rfl, rfl⟩

/-- Witness for claim C2 (amended): at an undecodable source the all-fail
hypothesis holds and the aggregate returns the empty list. -/
theorem prepare_all_collects_successes_witness :
    prepare_all_print_sizes SourceFile.undecodable true none true = []
    ∧ prepare_all_print_sizes SourceFile.undecodable true none true =
        (get_print_sizes_for_aspect_ratio none).filterMap
          (fun e =>
            (prepare_image_for_print SourceFile.undecodable e.1 none true none
              true).toOption.map SavedImage.path) := by
  have h := prepare_all_collects_successes SourceFile.undecodable true none true
  exact ⟨h.2 (fun e _ => rfl), h.1⟩

/-- Floor division respects the rational ordering decided by
cross-multiplication. -/
theorem nat_div_le_div (p q r s : Nat) (hq : 0 < q) (hs : 0 < s)
    (h : p * s ≤ r * q) : p / q ≤ r / s := by
  rw [Nat.le_div_iff_mul_le hs]
  apply Nat.le_of_mul_le_mul_right ?_ hq
  calc p / q * s * q = p / q * q * s := by ring
    _ ≤ p * s := Nat.mul_le_mul_right s (Nat.div_mul_le_self p q)
    _ ≤ r * q := h

/-- The scale `prepare_image_for_print` computes is the floor of the larger
of the two required ratios. -/
theorem upscale_scale_eq_max (iw ih tw th : Nat) (hw : 0 < iw) (hh : 0 < ih) :
    upscale_scale iw ih tw th = max (tw / iw) (th / ih) := by
  unfold upscale_scale
  by_cases hcmp : tw * ih ≥ th * iw
  · rw [if_pos hcmp]
    exact (max_eq_left (nat_div_le_div th ih tw iw hh hw (by linarith))).symm
  · rw [if_neg hcmp]
    exact (max_eq_right (nat_div_le_div tw iw th ih hw hh (by omega))).symm

/-- Claim C3: when the source is smaller than the target canvas in either
dimension, the upscale factor is the floor of
`max(target_width/source_width, target_height/source_height)`, it is at
least 1, the Upscaler is invoked with exactly that factor, and it enlarges
the source to `scale` times each linear dimension; when the source is at
least as large as the target in both dimensions the Upscaler is not
invoked. -/
theorem upscale_invocation_policy (source : Image) (size_name : String)
    (ofn : Option String) (fill pc : Bool) (ar : Option String) (tw th : Nat)
    (out : SavedImage)
    (hw : 0 < source.width) (hh : 0 < source.height) (hops : source.ops = [])
    (hl : lookupSize (get_print_sizes_for_aspect_ratio ar) size_name = some (tw, th))
    (h : prepare_image_for_print (SourceFile.decoded source) size_name ofn fill ar pc =
          Except.ok out) :
    ((source.width < tw ∨ source.height < th) →
      upscale_scale source.width source.height tw th =
          max (tw / source.width) (th / source.height)
        ∧ 1 ≤ upscale_scale source.width source.height tw th
        ∧ ImgOp.upscaled (upscale_scale source.width source.height tw th) ∈ out.image.ops
        ∧ (upscale_pillow source (upscale_scale source.width source.height tw th)).width =
            source.width * upscale_scale source.width source.height tw th
        ∧ (upscale_pillow source (upscale_scale source.width source.height tw th)).height =
            source.height * upscale_scale source.width source.height tw th)
    ∧ (tw ≤ source.width ∧ th ≤ source.height →
        ∀ s, ImgOp.upscaled s ∉ out.image.ops) := by
  have hops_out := prepare_decoded_ops source size_name ofn fill pc ar tw th out hl h
  constructor
  · intro hneed
    have hmax := upscale_scale_eq_max source.width source.height tw th hw hh
    refine ⟨hmax, ?_, ?_, rfl, rfl⟩
    · rcases hneed with hlt | hlt
      · have h1 : 1 ≤ tw / source.width :=
          (Nat.one_le_div_iff hw).mpr (Nat.le_of_lt hlt)
        exact le_trans h1 (hmax ▸ le_max_left _ _)
      · have h1 : 1 ≤ th / source.height :=
          (Nat.one_le_div_iff hh).mpr (Nat.le_of_lt hlt)
        exact le_trans h1 (hmax ▸ le_max_right _ _)
    · rw [hops_out, hops, if_pos hneed]
      simp
  · intro hbig s
    have hnot : ¬(source.width < tw ∨ source.height < th) := by omega
    rw [hops_out, hops, if_neg hnot]
    cases pc <;> simp [enhance_trace]

/-- Witness for claim C3: a 600x800 source targeting 8x10 portrait
(2400x3000) needs upscaling, the factor is exactly
`max(2400/600, 3000/800) = 4`, and the upscaled image is 2400x3200. -/
theorem upscale_invocation_policy_witness :
    upscale_scale 600 800 2400 3000 = max (2400 / 600) (3000 / 800)
    ∧ upscale_scale 600 800 2400 3000 = 4
    ∧ 1 ≤ upscale_scale 600 800 2400 3000
    ∧ ImgOp.upscaled 4 ∈
        (okValue (prepare_image_for_print (SourceFile.decoded (Image.new 600 800 white))
          "8x10" none true none true)).image.ops
    ∧ (upscale_pillow (Image.new 600 800 white) 4).width = 2400
    ∧ (upscale_pillow (Image.new 600 800 white) 4).height = 3200 := by
  have h := upscale_invocation_policy (Image.new 600 800 white) "8x10" none true true
    none 2400 3000
    (okValue (prepare_image_for_print (SourceFile.decoded (Image.new 600 800 white))
      "8x10" none true none true))
    (by decide) (by decide) rfl rfl rfl
  have h2 := h.1 (Or.inl (by decide))
  exact ⟨h2.1, by decide, h2.2.1, h2.2.2.1, h2.2.2.2.1, h2.2.2.2.2⟩

/-- Claim C4: with `fill_canvas = true` the composite has exactly the canvas
dimensions; no canvas background shows through (the in-range output pixels do
not depend on the canvas's pixel data, only cropped image content is shown);
and the overflow is cropped symmetrically, within one pixel: width overflow
when the image aspect exceeds the canvas aspect (then the full image height
is kept), height overflow otherwise (then the full image width is kept).
PIL `crop`/`resize` return new objects and `paste` acts on `canvas.copy()`,
so the input image is not mutated. -/
theorem center_fill_exact_cover (image canvas : Image) :
    ((center_image_on_canvas image canvas true).width = canvas.width
      ∧ (center_image_on_canvas image canvas true).height = canvas.height)
    ∧ (∀ (f g : Nat → Nat → Color) (x y : Nat), x < canvas.width → y < canvas.height →
        (center_image_on_canvas image { canvas with pixel := f } true).pixel x y =
          (center_image_on_canvas image { canvas with pixel := g } true).pixel x y)
    ∧ (canvas.width * image.height < image.width * canvas.height →
        (fill_crop_box image canvas).top = 0
        ∧ (fill_crop_box image canvas).bottom = image.height
        ∧ (fill_crop_box image canvas).right ≤ image.width
        ∧ (fill_crop_box image canvas).left ≤ image.width - (fill_crop_box image canvas).right
        ∧ image.width - (fill_crop_box image canvas).right ≤ (fill_crop_box image canvas).left + 1)
    ∧ (image.width * canvas.height ≤ canvas.width * image.height →
        (fill_crop_box image canvas).left = 0
        ∧ (fill_crop_box image canvas).right = image.width
        ∧ (fill_crop_box image canvas).bottom ≤ image.height
        ∧ (fill_crop_box image canvas).top ≤ image.height - (fill_crop_box image canvas).bottom
        ∧ image.height - (fill_crop_box image canvas).bottom ≤ (fill_crop_box image canvas).top + 1) := by
  refine ⟨⟨rfl, rfl⟩, ?_, ?_, ?_⟩
  · intro f g x y hx hy
    have hcond : ∀ p : Nat → Nat → Color,
        0 ≤ x ∧ x < 0 + (fill_resized image { canvas with pixel := p }).width ∧
          0 ≤ y ∧ y < 0 + (fill_resized image { canvas with pixel := p }).height := by
      intro p
      refine ⟨Nat.zero_le x, ?_, Nat.zero_le y, ?_⟩
      · show x < 0 + canvas.width
        omega
      · show y < 0 + canvas.height
        omega
    show (if 0 ≤ x ∧ x < 0 + (fill_resized image { canvas with pixel := f }).width ∧
            0 ≤ y ∧ y < 0 + (fill_resized image { canvas with pixel := f }).height then
          (fill_resized image { canvas with pixel := f }).pixel (x - 0) (y - 0)
        else f x y) =
      (if 0 ≤ x ∧ x < 0 + (fill_resized image { canvas with pixel := g }).width ∧
            0 ≤ y ∧ y < 0 + (fill_resized image { canvas with pixel := g }).height then
          (fill_resized image { canvas with pixel := g }).pixel (x - 0) (y - 0)
        else g x y)
    rw [if_pos (hcond f), if_pos (hcond g)]
    rfl
  · intro hwide
    have hch : 0 < canvas.height := by
      rcases Nat.eq_zero_or_pos canvas.height with h0 | h0
      · rw [h0, mul_zero] at hwide; omega
      · exact h0
    have hnw : image.height * canvas.width / canvas.height ≤ image.width := by
      calc image.height * canvas.width / canvas.height
          ≤ image.width * canvas.height / canvas.height := by
            apply Nat.div_le_div_right
            calc image.height * canvas.width = canvas.width * image.height :=
                  mul_comm _ _
              _ ≤ image.width * canvas.height := le_of_lt hwide
        _ = image.width := by
            rw [Nat.mul_div_assoc _ (dvd_refl _), Nat.div_self hch, mul_one]
    unfold fill_crop_box
    rw [if_pos hwide]
    refine ⟨rfl, rfl, ?_, ?_, ?_⟩ <;>
      · dsimp only
        generalize image.height * canvas.width / canvas.height = n at hnw ⊢
        omega
  · intro hle
    have hnh : image.width * canvas.height / canvas.width ≤ image.height := by
      rcases Nat.eq_zero_or_pos canvas.width with h0 | h0
      · rw [h0, Nat.div_zero]; exact Nat.zero_le _
      · calc image.width * canvas.height / canvas.width
            ≤ image.height * canvas.width / canvas.width := by
              apply Nat.div_le_div_right
              calc image.width * canvas.height ≤ canvas.width * image.height := hle
                _ = image.height * canvas.width := mul_comm _ _
          _ = image.height := by
              rw [Nat.mul_div_assoc _ (dvd_refl _), Nat.div_self h0, mul_one]
    unfold fill_crop_box
    rw [if_neg (not_lt.mpr hle)]
    refine ⟨rfl, rfl, ?_, ?_, ?_⟩ <;>
      · dsimp only
        generalize image.width * canvas.height / canvas.width = n at hnh ⊢
        omega

/-- Witness for claim C4: a wide 30x10 image on a 10x10 canvas (width
cropped symmetrically, exact cover), a tall 10x30 image on the same canvas
(height cropped), and an in-range pixel that does not depend on the canvas
background. -/
theorem center_fill_exact_cover_witness :
    ((center_image_on_canvas (Image.new 30 10 white) (Image.new 10 10 (0, 0, 0)) true).width = 10
      ∧ (center_image_on_canvas (Image.new 30 10 white) (Image.new 10 10 (0, 0, 0)) true).height = 10)
    ∧ (fill_crop_box (Image.new 30 10 white) (Image.new 10 10 (0, 0, 0))).top = 0
    ∧ 30 - (fill_crop_box (Image.new 30 10 white) (Image.new 10 10 (0, 0, 0))).right ≤
        (fill_crop_box (Image.new 30 10 white) (Image.new 10 10 (0, 0, 0))).left + 1
    ∧ (fill_crop_box (Image.new 10 30 white) (Image.new 10 10 (0, 0, 0))).left = 0
    ∧ (center_image_on_canvas (Image.new 30 10 white)
          { Image.new 10 10 (0, 0, 0) with pixel := fun _ _ => (1, 2, 3) } true).pixel 5 5 =
        (center_image_on_canvas (Image.new 30 10 white)
          { Image.new 10 10 (0, 0, 0) with pixel := fun _ _ => (7, 8, 9) } true).pixel 5 5 := by
  have h := center_fill_exact_cover (Image.new 30 10 white) (Image.new 10 10 (0, 0, 0))
  have h2 := center_fill_exact_cover (Image.new 10 30 white) (Image.new 10 10 (0, 0, 0))
  refine ⟨⟨h.1.1, h.1.2⟩, (h.2.2.1 (by decide)).1, (h.2.2.1 (by decide)).2.2.2.2,
    (h2.2.2.2 (by decide)).1, ?_⟩
  exact h.2.1 (fun _ _ => (1, 2, 3)) (fun _ _ => (7, 8, 9)) 5 5 (by decide) (by decide)

/-- Claim C7 (amended): with `fill_canvas = false` on a canvas whose pixels
are all white (as `prepare_print_canvas` produces), the result has exactly
the canvas dimensions, the image is scaled to fit inside the canvas with its
aspect ratio preserved and no cropping - the limiting dimension matches the
canvas exactly and the other is the aspect-preserving value floored by the
code's `int()` conversion, pinned here by the two inequalities that
characterize that floor - it is centered with margins symmetric to within
one pixel on both axes, and every pixel outside the pasted rectangle - the
letterbox border - is pure white.  The border pixels come from the canvas
itself, so they are white exactly because the canvas is.  The input image is
not mutated (PIL `thumbnail`/`resize` act on copies here). -/
theorem center_letterbox_spec (image canvas : Image)
    (hw : 0 < image.width) (hh : 0 < image.height)
    (hwhite : ∀ x y, canvas.pixel x y = white) :
    ((center_image_on_canvas image canvas false).width = canvas.width
      ∧ (center_image_on_canvas image canvas false).height = canvas.height)
    ∧ (letterbox_resized image canvas).width ≤ canvas.width
    ∧ (letterbox_resized image canvas).height ≤ canvas.height
    ∧ (letterbox_pos image canvas).1 + (letterbox_resized image canvas).width ≤ canvas.width
    ∧ (letterbox_pos image canvas).2 + (letterbox_resized image canvas).height ≤ canvas.height
    ∧ (canvas.width - ((letterbox_pos image canvas).1 + (letterbox_resized image canvas).width)
          ≤ (letterbox_pos image canvas).1 + 1
        ∧ (letterbox_pos image canvas).1
          ≤ canvas.width - ((letterbox_pos image canvas).1 + (letterbox_resized image canvas).width) + 1)
    ∧ (canvas.height - ((letterbox_pos image canvas).2 + (letterbox_resized image canvas).height)
          ≤ (letterbox_pos image canvas).2 + 1
        ∧ (letterbox_pos image canvas).2
          ≤ canvas.height - ((letterbox_pos image canvas).2 + (letterbox_resized image canvas).height) + 1)
    ∧ (image.width * canvas.height > canvas.width * image.height →
        (letterbox_resized image canvas).width = canvas.width
        ∧ (letterbox_resized image canvas).height * image.width ≤ canvas.width * image.height
        ∧ canvas.width * image.height < ((letterbox_resized image canvas).height + 1) * image.width)
    ∧ (image.width * canvas.height ≤ canvas.width * image.height →
        (letterbox_resized image canvas).height = canvas.height
        ∧ (letterbox_resized image canvas).width * image.height ≤ canvas.height * image.width
        ∧ canvas.height * image.width < ((letterbox_resized image canvas).width + 1) * image.height)
    ∧ (∀ x y, x < canvas.width → y < canvas.height →
        (x < (letterbox_pos image canvas).1
          ∨ (letterbox_pos image canvas).1 + (letterbox_resized image canvas).width ≤ x
          ∨ y < (letterbox_pos image canvas).2
          ∨ (letterbox_pos image canvas).2 + (letterbox_resized image canvas).height ≤ y) →
        (center_image_on_canvas image canvas false).pixel x y = white) := by
  have hborder : ∀ x y, x < canvas.width → y < canvas.height →
      (x < (letterbox_pos image canvas).1
        ∨ (letterbox_pos image canvas).1 + (letterbox_resized image canvas).width ≤ x
        ∨ y < (letterbox_pos image canvas).2
        ∨ (letterbox_pos image canvas).2 + (letterbox_resized image canvas).height ≤ y) →
      (center_image_on_canvas image canvas false).pixel x y = white := by
    intro x y hx hy hb
    show (if (letterbox_pos image canvas).1 ≤ x
            ∧ x < (letterbox_pos image canvas).1 + (letterbox_resized image canvas).width
            ∧ (letterbox_pos image canvas).2 ≤ y
            ∧ y < (letterbox_pos image canvas).2 + (letterbox_resized image canvas).height then
          (letterbox_resized image canvas).pixel
            (x - (letterbox_pos image canvas).1) (y - (letterbox_pos image canvas).2)
        else canvas.pixel x y) = white
    rw [if_neg ?hneg]
    · exact hwhite x y
    case hneg =>
      rintro ⟨h1, h2, h3, h4⟩
      rcases hb with hb | hb | hb | hb <;> omega
  by_cases hcnd : image.width * canvas.height > canvas.width * image.height
  · have hrh : canvas.width * image.height / image.width ≤ canvas.height := by
      calc canvas.width * image.height / image.width
          ≤ image.width * canvas.height / image.width :=
            Nat.div_le_div_right (le_of_lt hcnd)
        _ = canvas.height := Nat.mul_div_cancel_left _ hw
    have e1 : (letterbox_resized image canvas).width = canvas.width := by
      unfold letterbox_resized
      rw [if_pos hcnd]
      rfl
    have e2 : (letterbox_resized image canvas).height =
        canvas.width * image.height / image.width := by
      unfold letterbox_resized
      rw [if_pos hcnd]
      rfl
    have e3 : (letterbox_pos image canvas).1 = 0 := by
      unfold letterbox_pos
      rw [if_pos hcnd]
    have e4 : (letterbox_pos image canvas).2 =
        (canvas.height - canvas.width * image.height / image.width) / 2 := by
      unfold letterbox_pos
      rw [if_pos hcnd]
    refine ⟨⟨rfl, rfl⟩, ?_, ?_, ?_, ?_, ?_, ?_, ?_, ?_, hborder⟩
    · simp only [e1, e2, e3, e4]
      omega
    · simp only [e1, e2, e3, e4]
      omega
    · simp only [e1, e2, e3, e4]
      omega
    · simp only [e1, e2, e3, e4]
      omega
    · simp only [e1, e2, e3, e4]
      omega
    · simp only [e1, e2, e3, e4]
      omega
    · intro _
      refine ⟨e1, ?_, ?_⟩
      · rw [e2]
        exact Nat.div_mul_le_self _ _
      · rw [e2]
        exact (Nat.div_lt_iff_lt_mul hw).mp (Nat.lt_succ_self _)
    · intro hle2
      exact absurd hcnd (not_lt.mpr hle2)
  · have hle : image.width * canvas.height ≤ canvas.width * image.height := not_lt.mp hcnd
    have hrw : canvas.height * image.width / image.height ≤ canvas.width := by
      calc canvas.height * image.width / image.height
          ≤ image.height * canvas.width / image.height := by
            apply Nat.div_le_div_right
            calc canvas.height * image.width = image.width * canvas.height := mul_comm _ _
              _ ≤ canvas.width * image.height := hle
              _ = image.height * canvas.width := mul_comm _ _
        _ = canvas.width := Nat.mul_div_cancel_left _ hh
    have e1 : (letterbox_resized image canvas).width =
        canvas.height * image.width / image.height := by
      unfold letterbox_resized
      rw [if_neg hcnd]
      rfl
    have e2 : (letterbox_resized image canvas).height = canvas.height := by
      unfold letterbox_resized
      rw [if_neg hcnd]
      rfl
    have e3 : (letterbox_pos image canvas).1 =
        (canvas.width - canvas.height * image.width / image.height) / 2 := by
      unfold letterbox_pos
      rw [if_neg hcnd]
    have e4 : (letterbox_pos image canvas).2 = 0 := by
      unfold letterbox_pos
      rw [if_neg hcnd]
    refine ⟨⟨rfl, rfl⟩, ?_, ?_, ?_, ?_, ?_, ?_, ?_, ?_, hborder⟩
    · simp only [e1, e2, e3, e4]
      omega
    · simp only [e1, e2, e3, e4]
      omega
    · simp only [e1, e2, e3, e4]
      omega
    · simp only [e1, e2, e3, e4]
      omega
    · simp only [e1, e2, e3, e4]
      omega
    · simp only [e1, e2, e3, e4]
      omega
    · intro hgt
      exact absurd hgt hcnd
    · intro _
      refine ⟨e2, ?_, ?_⟩
      · rw [e1]
        exact Nat.div_mul_le_self _ _
      · rw [e1]
        exact (Nat.div_lt_iff_lt_mul hh).mp (Nat.lt_succ_self _)

/-- Witness for claim C7 (amended): a 1x1 image letterboxed onto a white 4x2
canvas keeps the canvas dimensions, is scaled to the aspect-preserving 2x2
fit (the height matches the canvas, the width is the floored
aspect-preserving value), and the border pixel at (0, 0) - left of the
pasted rectangle, which starts at x = 1 - is pure white. -/
theorem center_letterbox_spec_witness :
    ((center_image_on_canvas (Image.new 1 1 (5, 6, 7)) (Image.new 4 2 white) false).width = 4
      ∧ (center_image_on_canvas (Image.new 1 1 (5, 6, 7)) (Image.new 4 2 white) false).height = 2)
    ∧ (letterbox_pos (Image.new 1 1 (5, 6, 7)) (Image.new 4 2 white)).1 = 1
    ∧ (letterbox_resized (Image.new 1 1 (5, 6, 7)) (Image.new 4 2 white)).height = 2
    ∧ (letterbox_resized (Image.new 1 1 (5, 6, 7)) (Image.new 4 2 white)).width * 1 ≤ 2 * 1
    ∧ (center_image_on_canvas (Image.new 1 1 (5, 6, 7)) (Image.new 4 2 white) false).pixel 0 0 =
        white := by
  have h := center_letterbox_spec (Image.new 1 1 (5, 6, 7)) (Image.new 4 2 white)
    (by decide) (by decide) (fun _ _ => rfl)
  exact ⟨⟨h.1.1, h.1.2⟩, by decide,
    (h.2.2.2.2.2.2.2.2.1 (by decide)).1,
    (h.2.2.2.2.2.2.2.2.1 (by decide)).2.1,
    h.2.2.2.2.2.2.2.2.2 0 0 (by decide) (by decide) (Or.inl (by decide))⟩

/-- Counterexample to claim C7 as stated: `center_image_on_canvas` takes the
border pixels from the canvas it is given, so on a black canvas the
letterbox border is black, not pure white.  (The pipeline's canvases are
white, which is the only reason the border is white there.) -/
theorem center_letterbox_counterexample :
    (center_image_on_canvas (Image.new 1 1 (9, 9, 9)) (Image.new 4 2 (0, 0, 0)) false).width = 4
    ∧ (center_image_on_canvas (Image.new 1 1 (9, 9, 9)) (Image.new 4 2 (0, 0, 0)) false).height = 2
    ∧ (letterbox_pos (Image.new 1 1 (9, 9, 9)) (Image.new 4 2 (0, 0, 0))).1 = 1
    ∧ (center_image_on_canvas (Image.new 1 1 (9, 9, 9)) (Image.new 4 2 (0, 0, 0)) false).pixel 0 0 =
        (0, 0, 0)
    ∧ (0, 0, 0) ≠ white := by
  exact ⟨rfl, rfl, by decide, by decide, by decide⟩

/-- Claim C5 evaluation: `PrintPreparationTool.upscale_image` on a missing
or undecodable source raises `RuntimeError("Cannot create any image for
processing")` instead of returning the intended placeholder, because the
fallback block references `ImageDraw`, which `print_prep.py` never imports.
The `ImageProcessingTool` variant does behave as the claim says: a missing
source is replaced by the 1200x1800 fallback image (then upscaled, e.g. to
4800x7200 at factor 4) and an undecodable one by the fallback image itself,
observable to the caller through the fallback's fixed dimensions. -/
theorem upscale_missing_source_evaluation :
    pp_upscale_image SourceFile.missing 4 =
        Except.error "Cannot create any image for processing"
    ∧ pp_upscale_image SourceFile.undecodable 2 =
        Except.error "Cannot create any image for processing"
    ∧ ip_upscale_image SourceFile.missing 4 = Except.ok (upscale_pillow fallback_image 4)
    ∧ (upscale_pillow fallback_image 4).width = 4800
    ∧ (upscale_pillow fallback_image 4).height = 7200
    ∧ ip_upscale_image SourceFile.undecodable 4 = Except.ok fallback_image
    ∧ fallback_image.width = 1200 ∧ fallback_image.height = 1800 :=
  ⟨rfl, rfl, rfl, rfl, rfl, rfl, rfl, rfl⟩

/-- Claim C6 (amended): a size name absent from the selected catalog makes
both `prepare_print_canvas` and `prepare_image_for_print` fail with the
`ValueError` message naming the unknown size (`Invalid print size: <name>`);
the message does not list the catalog's valid size names. -/
theorem invalid_size_error_message (size_name : String) (ar : Option String)
    (source : Image) (ofn : Option String) (fill pc : Bool)
    (h : lookupSize (get_print_sizes_for_aspect_ratio ar) size_name = none) :
    prepare_print_canvas size_name ar =
        Except.error ("Invalid print size: " ++ size_name)
    ∧ prepare_image_for_print (SourceFile.decoded source) size_name ofn fill ar pc =
        Except.error ("Invalid print size: " ++ size_name) :=
  ⟨by simp [prepare_print_canvas, h],
   prepare_decoded_invalid_size source size_name ofn fill pc ar h⟩

/-- Witness for claim C6 (amended): the unknown size "9x9" under the default
portrait catalog. -/
theorem invalid_size_error_message_witness :
    prepare_print_canvas "9x9" none = Except.error "Invalid print size: 9x9"
    ∧ prepare_image_for_print (SourceFile.decoded (Image.new 10 10 white)) "9x9"
        none true none true = Except.error "Invalid print size: 9x9" :=
  invalid_size_error_message "9x9" none (Image.new 10 10 white) none true true rfl

/-- Counterexample to claim C6 as stated: the error for the unknown size
"9x9" is exactly `Invalid print size: 9x9`; it names the unknown size but
does not mention "4x6" (or any other valid size name of the portrait
catalog), so the error does not list the valid names. -/
theorem invalid_size_counterexample :
    prepare_print_canvas "9x9" none = Except.error "Invalid print size: 9x9"
    ∧ lookupSize (get_print_sizes_for_aspect_ratio none) "4x6" = some (1200, 1800)
    ∧ strContains "Invalid print size: 9x9" "9x9" = true
    ∧ strContains "Invalid print size: 9x9" "4x6" = false :=
  ⟨rfl, rfl, by decide, by decide⟩

/-- Claim C8: `enhance_image_for_print` with `preserve_colors = true` applies
exactly one sharpening pass and a 5 percent contrast increase and nothing
else (no saturation or brightness change); with `preserve_colors = false` it
applies sharpening, contrast +20 percent, saturation +10 percent and
brightness +5 percent; and in `prepare_image_for_print` the whole output
trace is the upscale steps (if any), then exactly one compositing step, then
the enhancement - so the enhancement runs exactly once, after compositing
and never before. -/
theorem enhancement_profile_and_order (img source : Image) (size_name : String)
    (ofn : Option String) (fill pc : Bool) (ar : Option String) (tw th : Nat)
    (out : SavedImage)
    (hops : source.ops = [])
    (hl : lookupSize (get_print_sizes_for_aspect_ratio ar) size_name = some (tw, th))
    (h : prepare_image_for_print (SourceFile.decoded source) size_name ofn fill ar pc =
          Except.ok out) :
    (enhance_image_for_print img true).ops =
        img.ops ++ [ImgOp.sharpenFilter, ImgOp.contrast 105]
    ∧ (enhance_image_for_print img false).ops =
        img.ops ++ [ImgOp.sharpenFilter, ImgOp.contrast 120, ImgOp.color 110,
          ImgOp.brightness 105]
    ∧ out.image.ops =
        (if source.width < tw ∨ source.height < th then
          [ImgOp.upscaled (upscale_scale source.width source.height tw th),
           ImgOp.sharpness 150, ImgOp.contrast 120]
         else [])
        ++ ImgOp.compositeOnCanvas fill :: enhance_trace pc := by
  refine ⟨enhance_image_for_print_ops img true, enhance_image_for_print_ops img false, ?_⟩
  have hops_out := prepare_decoded_ops source size_name ofn fill pc ar tw th out hl h
  rw [hops_out, hops]
  simp

/-- Witness for claim C8: the 600x800 source prepared at 8x10 with
`preserve_colors = true` ends with exactly the trace upscale steps, one
compositing step, then sharpen and contrast 105. -/
theorem enhancement_profile_and_order_witness :
    (enhance_image_for_print (Image.new 5 5 white) true).ops =
        [ImgOp.sharpenFilter, ImgOp.contrast 105]
    ∧ (enhance_image_for_print (Image.new 5 5 white) false).ops =
        [ImgOp.sharpenFilter, ImgOp.contrast 120, ImgOp.color 110, ImgOp.brightness 105]
    ∧ (okValue (prepare_image_for_print (SourceFile.decoded (Image.new 600 800 white))
          "8x10" none true none true)).image.ops =
        [ImgOp.upscaled 4, ImgOp.sharpness 150, ImgOp.contrast 120,
         ImgOp.compositeOnCanvas true, ImgOp.sharpenFilter, ImgOp.contrast 105] := by
  have h := enhancement_profile_and_order (Image.new 5 5 white) (Image.new 600 800 white)
    "8x10" none true true none 2400 3000
    (okValue (prepare_image_for_print (SourceFile.decoded (Image.new 600 800 white))
      "8x10" none true none true))
    rfl rfl rfl
  refine ⟨?_, ?_, ?_⟩
  · exact h.1
  · exact h.2.1
  · rw [h.2.2]
    decide

/-- Claim C9 (amended): `run` never propagates an exception, and each input
class maps to its result: a JSON object lacking a truthy `image_path` yields
exactly the fixed missing-field message; a JSON object with a truthy
`image_path` yields exactly the JSON-encoded array (possibly empty) of the
paths `prepare_all_print_sizes` produces for the extracted arguments; a
non-JSON input is processed as a direct image path, again yielding the
JSON-encoded path array; and a valid JSON value that is not an object falls
through both branches, so `run` returns Python `None`, not a string.  (The
outer `Error processing image:` handler is unreachable because
`prepare_all_print_sizes` catches all per-size failures.) -/
theorem run_result_shape (input_str : String) (parsed : Option Json)
    (fs : String → SourceFile) :
    (∀ fields, parsed = some (Json.obj fields) →
      json_truthy (image_path_of fields) = false →
      run input_str parsed fs =
        some "Error: Missing required field 'image_path' in JSON input")
    ∧ (∀ fields, parsed = some (Json.obj fields) →
      json_truthy (image_path_of fields) = true →
      run input_str parsed fs =
        some (json_dumps_list (prepare_all_print_sizes
          (fs (path_str_of (image_path_of fields)))
          (fill_canvas_of fields) (aspect_ratio_of fields) (preserve_colors_of fields))))
    ∧ (parsed = none →
      run input_str parsed fs =
        some (json_dumps_list (prepare_all_print_sizes (fs input_str) true none true)))
    ∧ (∀ j, parsed = some j → j.isObj = false → run input_str parsed fs = none) := by
  refine ⟨?_, ?_, ?_, ?_⟩
  · intro fields hp htr
    subst hp
    simp [run, htr]
  · intro fields hp htr
    subst hp
    simp [run, htr]
  · intro hp
    subst hp
    rfl
  · intro j hp hobj
    subst hp
    cases j with
    | obj fields => simp [Json.isObj] at hobj
    | null => rfl
    | bool b => rfl
    | num n => rfl
    | str s => rfl
    | arr xs => rfl

/-- Witness for claim C9 (amended): a JSON object without `image_path`
yields the fixed message; one with `image_path` yields the JSON array of
produced paths; a non-JSON input yields the JSON array for the direct path;
and the valid-JSON non-object input `3` yields Python `None`. -/
theorem run_result_shape_witness :
    run "nofield" (some (Json.obj [("fill_canvas", Json.bool false)]))
        (fun _ => SourceFile.undecodable) =
      some "Error: Missing required field 'image_path' in JSON input"
    ∧ run "field" (some (Json.obj [("image_path", Json.str "a.png")]))
        (fun _ => SourceFile.undecodable) =
      some (json_dumps_list (prepare_all_print_sizes SourceFile.undecodable true none true))
    ∧ run "not json" none (fun _ => SourceFile.undecodable) =
      some (json_dumps_list (prepare_all_print_sizes SourceFile.undecodable true none true))
    ∧ run "3" (some (Json.num 3)) (fun _ => SourceFile.undecodable) = none := by
  refine ⟨(run_result_shape "nofield" (some (Json.obj [("fill_canvas", Json.bool false)]))
      (fun _ => SourceFile.undecodable)).1 _ rfl (by decide), ?_,
    (run_result_shape "not json" none (fun _ => SourceFile.undecodable)).2.2.1 rfl,
    (run_result_shape "3" (some (Json.num 3)) (fun _ => SourceFile.undecodable)).2.2.2
      (Json.num 3) rfl (by decide)⟩
  exact (run_result_shape "field" (some (Json.obj [("image_path", Json.str "a.png")]))
    (fun _ => SourceFile.undecodable)).2.1 _ rfl (by decide)

/-- Counterexample to claim C9 as stated: the input string `3` is valid JSON
but not an object, so `isinstance(input_data, dict)` is false, control falls
off both `try` blocks, and the Python function returns `None` - not a
string. -/
theorem run_nonobject_counterexample :
    run "3" (some (Json.num 3)) (fun _ => SourceFile.missing) = none := rfl

/-- Claim C10: when `output_filename` is omitted,
`ImageProcessingTool.prepare_image_for_print` saves to
`output/processed_images/print_<size_name>.png`, a path depending only on
the size name; two successful calls with the same size name but different
sources, orientations, fill or color settings return the same path, so the
later call overwrites the earlier call's file. -/
theorem default_output_path_depends_only_on_size
    (file file2 : SourceFile) (size_name : String) (fill fill2 pc pc2 : Bool)
    (ar ar2 : Option String) (out out2 : SavedImage)
    (h : prepare_image_for_print file size_name none fill ar pc = Except.ok out)
    (h2 : prepare_image_for_print file2 size_name none fill2 ar2 pc2 = Except.ok out2) :
    out.path = "output/processed_images/" ++ ("print_" ++ size_name ++ ".png")
    ∧ out.path = out2.path := by
  have key : ∀ (f3 : SourceFile) (fl pc3 : Bool) (ar3 : Option String) (o : SavedImage),
      prepare_image_for_print f3 size_name none fl ar3 pc3 = Except.ok o →
      o.path = "output/processed_images/" ++ ("print_" ++ size_name ++ ".png") := by
    intro f3 fl pc3 ar3 o ho
    have inner : ∀ source : Image,
        prepare_image_for_print (SourceFile.decoded source) size_name none fl ar3 pc3 =
          Except.ok o →
        o.path = "output/processed_images/" ++ ("print_" ++ size_name ++ ".png") := by
      intro source hsrc
      cases hl : lookupSize (get_print_sizes_for_aspect_ratio ar3) size_name with
      | none =>
        rw [prepare_decoded_invalid_size source size_name none fl pc3 ar3 hl] at hsrc
        exact absurd hsrc (by simp)
      | some dims =>
        obtain ⟨tw, th⟩ := dims
        rw [prepare_decoded_ok source size_name none fl pc3 ar3 tw th hl] at hsrc
        have hout := (Except.ok.inj hsrc).symm
        subst hout
        rfl
    cases f3 with
    | missing => exact inner fallback_image ho
    | undecodable =>
      rw [prepare_undecodable_error] at ho
      exact absurd ho (by simp)
    | decoded img => exact inner img ho
  have p1 := key file fill pc ar out h
  have p2 := key file2 fill2 pc2 ar2 out2 h2
  exact ⟨p1, p1.trans p2.symm⟩

/-- Witness for claim C10: a 600x800 source with fill and default settings
and a missing source with letterbox, landscape-off settings both save 4x6 to
the same `output/processed_images/print_4x6.png`. -/
theorem default_output_path_witness :
    (okValue (prepare_image_for_print (SourceFile.decoded (Image.new 600 800 white))
        "4x6" none true none true)).path = "output/processed_images/print_4x6.png"
    ∧ (okValue (prepare_image_for_print (SourceFile.decoded (Image.new 600 800 white))
          "4x6" none true none true)).path =
        (okValue (prepare_image_for_print SourceFile.missing "4x6" none false
          (some "portrait") false)).path := by
  have h := default_output_path_depends_only_on_size
    (SourceFile.decoded (Image.new 600 800 white)) SourceFile.missing "4x6"
    true false true false none (some "portrait")
    (okValue (prepare_image_for_print (SourceFile.decoded (Image.new 600 800 white))
      "4x6" none true none true))
    (okValue (prepare_image_for_print SourceFile.missing "4x6" none false
      (some "portrait") false))
    rfl rfl
  exact ⟨h.1, h.2⟩

end EtsyListing
